import Mathlib

/-!
Shallow embedding of the Javier Soto Telegram bot (src/bot.js).

The stateful parts of the program (the `StateManager` maps, the pipeline
handlers of class `JavierBot`) are modelled as pure functions from an
explicit `BotState` to a new `BotState` together with a list of observable
`Event`s (messages sent to the user, backend calls).  External collaborators
(Telegram delivery, OpenAI, ElevenLabs) are modelled by explicit failure
oracles: each pipeline takes a record of `Except`/`Bool` outcomes, one per
external call that can throw inside the pipeline's `try` block, so that
every failure path of the source can be exercised (fault injection).
Best-effort progress messages (`.catch(()=>{})` in the source) cannot throw
and do not touch state; they are omitted from the event trace.
JavaScript numbers are modelled as `ℚ`; `parseInt`/`parseFloat` are modelled
on their decimal fragment (leading-prefix parsing, `NaN` as `none`).
-/

/-- Value of a list of decimal digit characters (used by the models of the
JavaScript `parseInt` and `parseFloat` builtins). -/
def natOfDigits (l : List Char) : ℕ :=
  l.foldl (fun a c => a * 10 + (c.toNat - 48)) 0

/-- Strip leading and trailing whitespace from a character list. -/
def jsTrimChars (l : List Char) : List Char :=
  ((l.dropWhile (fun c => c.isWhitespace)).reverse.dropWhile
    (fun c => c.isWhitespace)).reverse

/-- Model of the JavaScript `String.prototype.trim`. -/
def jsTrim (s : String) : String := ⟨jsTrimChars s.data⟩

/-- Whether the first list is an initial segment of the second (used to
model `String.prototype.startsWith`). -/
def charsLead : List Char → List Char → Bool
  | [], _ => true
  | _ :: _, [] => false
  | a :: as, b :: bs => (a = b) && charsLead as bs

/-- Model of `messageText.startsWith(p)`. -/
def jsStartsWith (s p : String) : Bool := charsLead p.data s.data

/-- Split a character list at every comma (helper for the model of
`String.prototype.split(',')`). -/
def splitCommaAux : List Char → List Char → List String
  | [], acc => [⟨acc.reverse⟩]
  | c :: rest, acc =>
    if c = ',' then (⟨acc.reverse⟩ : String) :: splitCommaAux rest []
    else splitCommaAux rest (c :: acc)

/-- Model of `envVar.split(',')`. -/
def jsSplitComma (s : String) : List String := splitCommaAux s.data []

/-- Model of `textParts.join(' ')`. -/
def joinSpace (parts : List String) : String :=
  ⟨List.intercalate [' '] (parts.map String.data)⟩

/-- Model of the JavaScript `parseInt` builtin (decimal fragment): skip
leading whitespace, optional sign, then the longest prefix of decimal
digits; `NaN` (here `none`) iff that prefix is empty. `parseInt` stops at
the first non-digit, so `"123abc"` parses to `123`. -/
def jsParseInt (s : String) : Option Int :=
  let l := s.data.dropWhile (fun c => c.isWhitespace)
  let signed : Int × List Char :=
    match l with
    | '-' :: t => (-1, t)
    | '+' :: t => (1, t)
    | t => (1, t)
  let digits := signed.2.takeWhile (fun c => c.isDigit)
  if digits.isEmpty then none
  else some (signed.1 * (natOfDigits digits : Int))

/-- Model of the JavaScript `parseFloat` builtin (plain decimal fragment,
no exponent forms): skip leading whitespace, optional sign, digits with an
optional fractional part; `NaN` (here `none`) iff no digit was consumed. -/
def jsParseFloat (s : String) : Option ℚ :=
  let l := s.data.dropWhile (fun c => c.isWhitespace)
  let signed : Int × List Char :=
    match l with
    | '-' :: t => (-1, t)
    | '+' :: t => (1, t)
    | t => (1, t)
  let intPart := signed.2.takeWhile (fun c => c.isDigit)
  let rest := signed.2.drop intPart.length
  let fracPart :=
    match rest with
    | '.' :: t => t.takeWhile (fun c => c.isDigit)
    | _ => []
  if intPart.isEmpty ∧ fracPart.isEmpty then none
  else some (mkRat
    (signed.1 * (natOfDigits intPart * 10 ^ fracPart.length + natOfDigits fracPart : ℕ))
    (10 ^ fracPart.length))

/-- `CONFIG.ELEVEN_LABS.STABILITY` (0.30). -/
def defaultStability : ℚ := mkRat 3 10

/-- `CONFIG.ELEVEN_LABS.SIMILARITY_BOOST` (1.0). -/
def defaultSimilarityBoost : ℚ := 1

/-- `CONFIG.ELEVEN_LABS.STYLE` (0.7). -/
def defaultStyle : ℚ := mkRat 7 10

/-- `CONFIG.ELEVEN_LABS.SPEED` (1.0). -/
def defaultSpeed : ℚ := 1

/-- `CONFIG.ELEVEN_LABS.USE_SPEAKER_BOOST` (true). -/
def defaultUseSpeakerBoost : Bool := true

/-- `maxHistoryPairs` in `StateManager.addMessageToConversation` (10). -/
def maxHistoryPairs : ℕ := 10

/-- `maxMessages = 1 + (maxHistoryPairs * 2)` in
`StateManager.addMessageToConversation` (so 21). -/
def maxMessages : ℕ := 1 + maxHistoryPairs * 2

/-- One entry of a GPT conversation history (`{role, content}`). -/
structure ChatEntry where
  role : String
  content : String
deriving DecidableEq

/-- The fixed system prompt returned by `StateManager.getSystemPrompt`.
The source text is a long inert persona description; it is abbreviated to
its first sentence here because only its identity matters to the claims. -/
def systemPromptText : String :=
  "You are Javier Soto, a highly experienced Assistant Director in the film industry."

/-- The system entry seeded at index 0 of every conversation. -/
def systemEntry : ChatEntry := ⟨"system", systemPromptText⟩

/-- Per-user conversation map (`StateManager.conversations`). -/
def ConvMap : Type := Int → Option (List ChatEntry)

/-- Pointwise update of a user-keyed map (models `Map.set` / `Map.delete`). -/
def mapSet {α : Type} (m : Int → Option α) (k : Int) (v : Option α) :
    Int → Option α :=
  fun q => if q = k then v else m q

/-- `StateManager.getConversation`: returns the existing history, or seeds a
new one holding only the system entry.  Returns the (possibly updated) map
together with the history. -/
def getConversation (m : ConvMap) (u : Int) : ConvMap × List ChatEntry :=
  match m u with
  | some conv => (m, conv)
  | none => (mapSet m u (some [systemEntry]), [systemEntry])

/-- The history-cap enforcement of `StateManager.addMessageToConversation`:
`if (conversation.length > maxMessages) conversation.splice(1, conversation.length - maxMessages)`,
i.e. delete the oldest entries starting at index 1. -/
def trimConversation (c : List ChatEntry) : List ChatEntry :=
  if maxMessages < c.length then
    match c with
    | [] => []
    | h :: t => h :: List.drop (c.length - maxMessages) t
  else c

/-- `StateManager.addMessageToConversation`: no-op when GPT is disabled
(`if (!openai) return`), otherwise push the entry onto the (seeded)
history and enforce the cap. -/
def addMessageToConversation (gptEnabled : Bool) (m : ConvMap) (u : Int)
    (role content : String) : ConvMap :=
  if gptEnabled = false then m
  else
    let seeded := getConversation m u
    mapSet seeded.1 u (some (trimConversation (seeded.2 ++ [⟨role, content⟩])))

/-- One push-then-trim step on a single history list (the list-level core of
`addMessageToConversation`). -/
def appendEntry (c : List ChatEntry) (e : ChatEntry) : List ChatEntry :=
  trimConversation (c ++ [e])

/-- `parseIds` in `StateManager.initializeState`: split the configuration
string on commas, `parseInt` each trimmed token, drop the `NaN`s.  A falsy
environment value (absent or empty) yields the empty list. -/
def parseIds (envVar : Option String) : List Int :=
  match envVar with
  | none => []
  | some s =>
      if s = "" then []
      else (jsSplitComma s).filterMap (fun tok => jsParseInt (jsTrim tok))

/-- `StateManager.isAuthorized`: `userId && this.authorizedUsers.has(userId)`
(a falsy user id, 0, short-circuits to a falsy result). -/
def isAuthorized (authorizedUsers : List Int) (userId : Int) : Bool :=
  (userId != 0) && authorizedUsers.contains userId

/-- `StateManager.isAdmin`: `userId && this.adminUsers.has(userId)`. -/
def isAdmin (adminUsers : List Int) (userId : Int) : Bool :=
  (userId != 0) && adminUsers.contains userId

/-- The final voice settings actually sent to the synthesis backend. -/
structure VoiceSettings where
  stability : ℚ
  similarity_boost : ℚ
  style : ℚ
  speed : ℚ
  use_speaker_boost : Bool
deriving DecidableEq

/-- The caller-supplied overrides (`options` of `ApiService.generateVoice`);
every field is independently optional. -/
structure VoiceOptions where
  stability : Option ℚ := none
  similarity_boost : Option ℚ := none
  style : Option ℚ := none
  speed : Option ℚ := none
  use_speaker_boost : Option Bool := none
deriving DecidableEq

/-- The `finalSettings` computation of `ApiService.generateVoice`: each
supplied override is clamped (`Math.max`/`Math.min`) to its range —
stability to [0,1], similarity to [0,1], style to [0,∞), speed to
[0.5,2] — and an absent override falls back to the configured default. -/
def finalVoiceSettings (options : VoiceOptions) : VoiceSettings :=
  { stability :=
      match options.stability with
      | some v => max 0 (min 1 v)
      | none => defaultStability
    similarity_boost :=
      match options.similarity_boost with
      | some v => max 0 (min 1 v)
      | none => defaultSimilarityBoost
    style :=
      match options.style with
      | some v => max 0 v
      | none => defaultStyle
    speed :=
      match options.speed with
      | some v => max (mkRat 1 2) (min 2 v)
      | none => defaultSpeed
    use_speaker_boost := options.use_speaker_boost.getD defaultUseSpeakerBoost }

/-- Clamp `v` into the interval from `lo` to `hi`. -/
def clampQ (lo hi v : ℚ) : ℚ := max lo (min hi v)

/-- The voice settings as the spec words them (claim C8): the value used is
the supplied value clamped to that option's fixed valid range, and an
option that is not supplied uses its configured default.  Stated
independently of `finalVoiceSettings` so the two can be compared. -/
def specVoiceSettings (options : VoiceOptions) : VoiceSettings :=
  { stability := (options.stability.map (clampQ 0 1)).getD defaultStability
    similarity_boost :=
      (options.similarity_boost.map (clampQ 0 1)).getD defaultSimilarityBoost
    style := (options.style.map (fun v => max 0 v)).getD defaultStyle
    speed := (options.speed.map (clampQ (mkRat 1 2) 2)).getD defaultSpeed
    use_speaker_boost := options.use_speaker_boost.getD defaultUseSpeakerBoost }

/-- `Utils.retry`, inner loop.  `f i` is the outcome of attempt `i` (fault
injection for the wrapped asynchronous operation); the second component of
the result collects the inter-attempt waits (`delay * 2 ** i`), performed
only when another attempt remains (`i < maxRetries - 1`). -/
def retryGo {α : Type} (f : ℕ → Except String α) (delay : ℕ) :
    ℕ → ℕ → String → Except String α × List ℕ
  | 0, _, lastErr => (.error lastErr, [])
  | fuel + 1, i, _ =>
    match f i with
    | .ok a => (.ok a, [])
    | .error e =>
      match fuel with
      | 0 => (.error e, [])
      | k + 1 =>
        let r := retryGo f delay (k + 1) (i + 1) e
        (r.1, delay * 2 ^ i :: r.2)

/-- `Utils.retry(fn, maxRetries, delay)`: run up to `maxRetries` attempts
with exponential backoff, returning the first success or propagating the
last error. -/
def retry {α : Type} (f : ℕ → Except String α) (maxRetries delay : ℕ) :
    Except String α × List ℕ :=
  retryGo f delay maxRetries 0 "undefined"

/-- The three recognized flags of the `/t2v` command. -/
inductive T2vFlag where
  | stability
  | style
  | speed
deriving DecidableEq

/-- The internal name the source stores in `currentFlag`. -/
def flagName : T2vFlag → String
  | .stability => "stability"
  | .style => "style"
  | .speed => "speed"

/-- A `/t2v` parse failure (`parsingError` in `handleTextToVoiceCommand`). -/
inductive ParseErr where
  | valueNotNumeric (flag : T2vFlag) (received : String)
  | trailingFlag (flag : T2vFlag)
deriving DecidableEq

/-- The numeric overrides collected by the `/t2v` parser
(`overrideOptions`). -/
structure T2vOptions where
  stability : Option ℚ := none
  style : Option ℚ := none
  speed : Option ℚ := none
deriving DecidableEq

/-- Store a parsed flag value into the override record. -/
def setFlagValue (o : T2vOptions) : T2vFlag → ℚ → T2vOptions
  | .stability, v => { o with stability := some v }
  | .style, v => { o with style := some v }
  | .speed, v => { o with speed := some v }

/-- Mutable scan state of the `/t2v` parsing loop. -/
structure T2vScan where
  overrideOptions : T2vOptions
  textParts : List String
  currentFlag : Option T2vFlag
  parsingError : Option ParseErr
deriving DecidableEq

/-- The token `-s`. -/
def flagTokenS : String := "-s"

/-- The token `-x`. -/
def flagTokenX : String := "-x"

/-- The token `-v`. -/
def flagTokenV : String := "-v"

/-- The `for (const part of parts)` loop of `handleTextToVoiceCommand`:
a flag token arms `currentFlag`; while a flag is armed the next token must
`parseFloat`, else the loop records an error and breaks; other tokens are
collected as message text. -/
def parseT2VLoop : List String → T2vScan → T2vScan
  | [], st => st
  | part :: rest, st =>
    if part = flagTokenS then
      parseT2VLoop rest { st with currentFlag := some .stability }
    else if part = flagTokenX then
      parseT2VLoop rest { st with currentFlag := some .style }
    else if part = flagTokenV then
      parseT2VLoop rest { st with currentFlag := some .speed }
    else
      match st.currentFlag with
      | some f =>
        match jsParseFloat part with
        | some v =>
          parseT2VLoop rest
            { st with
              overrideOptions := setFlagValue st.overrideOptions f v
              currentFlag := none }
        | none => { st with parsingError := some (.valueNotNumeric f part) }
      | none => parseT2VLoop rest { st with textParts := st.textParts ++ [part] }

/-- Flag-and-text parsing of `handleTextToVoiceCommand`, over the argument
list (the whitespace-split message with the `/t2v` token shifted off).
After the loop, a still-armed flag with no prior error is a trailing-flag
error; otherwise the text parts are joined with single spaces and trimmed. -/
def parseT2V (parts : List String) : Except ParseErr (T2vOptions × String) :=
  let st := parseT2VLoop parts ⟨{}, [], none, none⟩
  match st.parsingError with
  | some e => .error e
  | none =>
    match st.currentFlag with
    | some f => .error (.trailingFlag f)
    | none => .ok (st.overrideOptions, jsTrim (joinSpace st.textParts))

/-- Kinds of user-visible notices the handlers can send. -/
inductive ReplyKind where
  | stillProcessing
  | parseError (e : ParseErr)
  | emptyText
  | gptDisabled
  | tUsage
  | gptResponse (text : String)
  | gptError (e : String)
  | ttsError (e : String)
  | deliveryError
  | v2vError (e : String)
  | v2vReady
  | v2vAlreadyWaiting
  | v2vStartError
  | cancelledVoiceIntent
  | unsolicitedVoice
  | unsolicitedAudio
  | resetDone
  | resetDisabled
deriving DecidableEq

/-- Observable events of one handler invocation. -/
inductive Event where
  | reply (k : ReplyKind)
  | gptCall
  | ttsCall (settings : VoiceSettings)
  | downloadAudio
  | stsCall
  | sendAudio
  | enterTransformPipeline
deriving DecidableEq

/-- Whether an event marks entry into `processVoiceTransformation`. -/
def isEnterTransform : Event → Bool
  | .enterTransformPipeline => true
  | _ => false

/-- Whether an event is a call to an external generation or synthesis
backend. -/
def isBackendCall : Event → Bool
  | .gptCall => true
  | .ttsCall _ => true
  | .stsCall => true
  | _ => false

/-- Whether an event is a GPT backend call. -/
def isGptCall : Event → Bool
  | .gptCall => true
  | _ => false

/-- The per-user mutable state of `StateManager` relevant to the claims:
the operation lock, the conversation store, and the voice-transform
intent.  Each map sends a user id to at most one value by construction. -/
@[ext]
structure BotState where
  pendingOperations : Int → Option String
  conversations : ConvMap
  pendingVoiceTransformations : Int → Option Int

/-- The state at process start: every map empty. -/
def initState : BotState :=
  { pendingOperations := fun _ => none
    conversations := fun _ => none
    pendingVoiceTransformations := fun _ => none }

/-- The operation-kind tag set by `processGPTMessage`. -/
def opGptGenerating : String := "gpt_generating"

/-- The operation-kind tag set by `handleTextToVoiceCommand`. -/
def opT2vConverting : String := "t2v_converting"

/-- The operation-kind tag set by `processVoiceTransformation`. -/
def opV2vTransforming : String := "v2v_transforming"

/-- Failure oracle for the GPT pipeline: the outcome of the (retried)
`ApiService.generateGPTResponse` call. -/
structure GptOracle where
  gptResult : Except String String

/-- Failure oracle for the text-to-speech pipeline: the outcome of
`ApiService.generateVoice` and of the audio delivery (`replyWithAudio`). -/
structure T2vOracle where
  genVoice : Except String Unit
  deliveryOk : Bool

/-- Failure oracle for the voice-transform pipeline: the outcomes of the
Telegram download, of `ApiService.transformVoice`, and of the delivery. -/
structure V2vOracle where
  download : Except String Unit
  transform : Except String Unit
  deliveryOk : Bool

/-- `processGPTMessage`: reject if GPT is disabled or the user already holds
the operation lock; otherwise set the lock, append the user message to the
history, call the backend, on success append and deliver the reply, and in
all cases clear the lock in the `finally` block. -/
def processGPTMessage (gptEnabled : Bool) (orc : GptOracle) (s : BotState)
    (u : Int) (userMessage : String) : BotState × List Event :=
  if gptEnabled = false then (s, [.reply .gptDisabled])
  else if (s.pendingOperations u).isSome then (s, [.reply .stillProcessing])
  else
    let s1 : BotState :=
      { s with pendingOperations := mapSet s.pendingOperations u (some opGptGenerating) }
    let s2 : BotState :=
      { s1 with conversations := addMessageToConversation true s1.conversations u "user" userMessage }
    match orc.gptResult with
    | .ok resp =>
      let s3 : BotState :=
        { s2 with conversations := addMessageToConversation true s2.conversations u "assistant" resp }
      ({ s3 with pendingOperations := mapSet s3.pendingOperations u none },
       [.gptCall, .reply (.gptResponse resp)])
    | .error e =>
      ({ s2 with pendingOperations := mapSet s2.pendingOperations u none },
       [.gptCall, .reply (.gptError e)])

/-- Conversion of the `/t2v` overrides into `generateVoice` options (only
stability, style and speed are ever passed by the command handler). -/
def voiceOptionsOfOverrides (o : T2vOptions) : VoiceOptions :=
  { stability := o.stability, style := o.style, speed := o.speed }

/-- `handleTextToVoiceCommand`: parse flags and text (rejecting parse errors
and empty bodies before anything else), reject if the lock is held, else
set the lock, call the synthesis backend with the clamped settings, deliver
the audio, and clear the lock (and delete the artifact) in the `finally`
block on every path. -/
def handleTextToVoiceCommand (orc : T2vOracle) (s : BotState) (u : Int)
    (parts : List String) : BotState × List Event :=
  match parseT2V parts with
  | .error e => (s, [.reply (.parseError e)])
  | .ok (opts, text) =>
    if text = "" then (s, [.reply .emptyText])
    else if (s.pendingOperations u).isSome then (s, [.reply .stillProcessing])
    else
      let s1 : BotState :=
        { s with pendingOperations := mapSet s.pendingOperations u (some opT2vConverting) }
      let settings := finalVoiceSettings (voiceOptionsOfOverrides opts)
      let sOut : BotState :=
        { s1 with pendingOperations := mapSet s1.pendingOperations u none }
      match orc.genVoice with
      | .error e => (sOut, [.ttsCall settings, .reply (.ttsError e)])
      | .ok _ =>
        if orc.deliveryOk then (sOut, [.ttsCall settings, .sendAudio])
        else (sOut, [.ttsCall settings, .reply .deliveryError])

/-- `processVoiceTransformation`: clear the pending voice intent
immediately on entry (before any check or backend work), then reject if the
operation lock is held; otherwise set the lock, download the audio, call
the transformation backend, deliver, and clear the lock (and delete both
artifacts) in the `finally` block on every path. -/
def processVoiceTransformation (orc : V2vOracle) (s : BotState) (u : Int) :
    BotState × List Event :=
  let s0 : BotState :=
    { s with pendingVoiceTransformations := mapSet s.pendingVoiceTransformations u none }
  if (s0.pendingOperations u).isSome then
    (s0, [.enterTransformPipeline, .reply .stillProcessing])
  else
    let s1 : BotState :=
      { s0 with pendingOperations := mapSet s0.pendingOperations u (some opV2vTransforming) }
    let sOut : BotState :=
      { s1 with pendingOperations := mapSet s1.pendingOperations u none }
    match orc.download with
    | .error e => (sOut, [.enterTransformPipeline, .downloadAudio, .reply (.v2vError e)])
    | .ok _ =>
      match orc.transform with
      | .error e =>
        (sOut, [.enterTransformPipeline, .downloadAudio, .stsCall, .reply (.v2vError e)])
      | .ok _ =>
        if orc.deliveryOk then
          (sOut, [.enterTransformPipeline, .downloadAudio, .stsCall, .sendAudio])
        else
          (sOut, [.enterTransformPipeline, .downloadAudio, .stsCall, .reply .deliveryError])

/-- `handleVoiceMessage`: route to the transform pipeline when a voice
intent is pending, otherwise notify that the voice message was
unsolicited. -/
def handleVoiceMessage (orc : V2vOracle) (s : BotState) (u : Int) :
    BotState × List Event :=
  if (s.pendingVoiceTransformations u).isSome then processVoiceTransformation orc s u
  else (s, [.reply .unsolicitedVoice])

/-- `handleAudioMessage`: route to the transform pipeline when a voice
intent is pending, otherwise notify that the audio file was unsolicited. -/
def handleAudioMessage (orc : V2vOracle) (s : BotState) (u : Int) :
    BotState × List Event :=
  if (s.pendingVoiceTransformations u).isSome then processVoiceTransformation orc s u
  else (s, [.reply .unsolicitedAudio])

/-- `handleMessage` (plain text messages): ignore empty text and commands;
a pending voice intent is cancelled with a notice and no pipeline runs;
otherwise route to the GPT pipeline (or a disabled notice). -/
def handleMessage (gptEnabled : Bool) (orc : GptOracle) (s : BotState)
    (u : Int) (text : String) : BotState × List Event :=
  if (jsTrim text == "") || jsStartsWith text "/" then (s, [])
  else if (s.pendingVoiceTransformations u).isSome then
    ({ s with pendingVoiceTransformations := mapSet s.pendingVoiceTransformations u none },
     [.reply .cancelledVoiceIntent])
  else if gptEnabled = false then (s, [.reply .gptDisabled])
  else processGPTMessage gptEnabled orc s u text

/-- The argument extraction of `handleTextCommand`: the regular expression
match on the message text followed by a trim, requiring at least one
whitespace character after the command token and a nonempty remainder. -/
def extractTArg (messageText : String) : Option String :=
  match messageText.data with
  | '/' :: 't' :: rest =>
    match rest with
    | [] => none
    | c :: _ =>
      if c.isWhitespace ∧ jsTrimChars rest ≠ [] then some ⟨jsTrimChars rest⟩
      else none
  | _ => none

/-- `handleTextCommand` (the `/t` command): reject when GPT is disabled or
no message argument was given, otherwise run the GPT pipeline.  Note that
this handler never reads or clears the pending voice intent. -/
def handleTextCommand (gptEnabled : Bool) (orc : GptOracle) (s : BotState)
    (u : Int) (messageText : String) : BotState × List Event :=
  if gptEnabled = false then (s, [.reply .gptDisabled])
  else
    match extractTArg messageText with
    | none => (s, [.reply .tUsage])
    | some msg => processGPTMessage gptEnabled orc s u msg

/-- `handleVoiceToVoiceCommand` (the `/v2v` command): reject when the lock
is held or an intent is already armed; otherwise arm the intent and
confirm (if the confirmation itself throws, the intent is cleared again in
the `catch` block). -/
def handleVoiceToVoiceCommand (replyOk : Bool) (s : BotState) (u : Int)
    (messageId : Int) : BotState × List Event :=
  if (s.pendingOperations u).isSome then (s, [.reply .stillProcessing])
  else if (s.pendingVoiceTransformations u).isSome then
    (s, [.reply .v2vAlreadyWaiting])
  else if replyOk then
    ({ s with pendingVoiceTransformations := mapSet s.pendingVoiceTransformations u (some messageId) },
     [.reply .v2vReady])
  else (s, [.reply .v2vStartError])

/-- `handleResetConversation` (the `/reset` command): with GPT disabled only
a notice is sent; otherwise the user's entire history is deleted from the
store. -/
def handleResetConversation (gptEnabled : Bool) (s : BotState) (u : Int) :
    BotState × List Event :=
  if gptEnabled = false then (s, [.reply .resetDisabled])
  else
    ({ s with conversations := mapSet s.conversations u none }, [.reply .resetDone])

-- Instance needed to evaluate concrete parser and retry outcomes.
deriving instance DecidableEq for Except

/-- A state in which user 1 already holds the operation lock (a GPT
generation in flight) while the voice-transform intent is also armed —
reachable by issuing the transform command and then the text command, whose
pipeline acquires the lock without touching the intent. -/
def c2State : BotState :=
  { pendingOperations := fun q => if q = 1 then some opGptGenerating else none
    conversations := fun _ => none
    pendingVoiceTransformations := fun q => if q = 1 then some 5 else none }

/-- A state in which user 1 has the voice-transform intent armed (state
AwaitingAudio) and no operation in flight. -/
def c5State : BotState :=
  { pendingOperations := fun _ => none
    conversations := fun _ => none
    pendingVoiceTransformations := fun q => if q = 1 then some 7 else none }

/-- A state identical to `c5State`, used to discharge the hypotheses of the
single-consumption theorem: user 1 has the intent armed and no pending
operation. -/
def c4State : BotState :=
  { pendingOperations := fun _ => none
    conversations := fun _ => none
    pendingVoiceTransformations := fun q => if q = 1 then some 7 else none }

/-- An operation that fails on the first two attempts and succeeds on the
third (fault-injection witness for the retry wrapper). -/
def retryWitF : ℕ → Except String ℕ :=
  fun i => if i < 2 then .error "boom" else .ok 7

/-- An operation that fails on every attempt. -/
def retryWitG : ℕ → Except String ℕ := fun _ => .error "down"

theorem mapSet_same {α : Type} (m : Int → Option α) (k : Int) (v : Option α) :
    mapSet m k v k = v := by
  simp [mapSet]

theorem mapSet_idem {α : Type} (m : Int → Option α) (k : Int) (v w : Option α) :
    mapSet (mapSet m k v) k w = mapSet m k w := by
  funext q
  by_cases h : q = k <;> simp [mapSet, h]

/-- C1: for every user, the operation lock maps a user to at most one
operation kind by construction (`pendingOperations : Int → Option String`),
and every pipeline invocation entered with the lock free — i.e. every
invocation that can set the lock — returns with the lock cleared, for every
outcome of the injected backend and delivery faults (success and all
failure paths). -/
theorem pipelines_release_lock (gptEnabled : Bool) (gorc : GptOracle)
    (torc : T2vOracle) (vorc : V2vOracle) (s : BotState) (u : Int)
    (msg : String) (parts : List String)
    (h : s.pendingOperations u = none) :
    (processGPTMessage gptEnabled gorc s u msg).1.pendingOperations u = none ∧
    (handleTextToVoiceCommand torc s u parts).1.pendingOperations u = none ∧
    (processVoiceTransformation vorc s u).1.pendingOperations u = none := by
  refine ⟨?_, ?_, ?_⟩
  · cases gptEnabled
    · simp [processGPTMessage, h]
    · cases hg : gorc.gptResult <;> simp [processGPTMessage, h, hg, mapSet]
  · rcases hp : parseT2V parts with e | ⟨opts, text⟩
    · simp [handleTextToVoiceCommand, hp, h]
    · by_cases ht : text = ""
      · simp [handleTextToVoiceCommand, hp, ht, h]
      · cases hg : torc.genVoice <;>
          cases hd : torc.deliveryOk <;>
          simp [handleTextToVoiceCommand, hp, ht, h, hg, hd, mapSet]
  · cases hg : vorc.download <;> cases ht : vorc.transform <;> cases hd : vorc.deliveryOk <;>
      simp [processVoiceTransformation, h, hg, ht, hd, mapSet]

/-- C1 witness: the lock-free hypothesis discharged at the initial state for
user 1, with a concrete all-success oracle. -/
theorem pipelines_release_lock_witness :
    initState.pendingOperations 1 = none ∧
    ((processGPTMessage true ⟨Except.ok "r"⟩ initState 1 "hola").1.pendingOperations 1 = none ∧
     (handleTextToVoiceCommand ⟨Except.ok (), true⟩ initState 1 ["hola"]).1.pendingOperations 1 = none ∧
     (processVoiceTransformation ⟨Except.ok (), Except.ok (), true⟩ initState 1).1.pendingOperations 1 = none) :=
  ⟨rfl, pipelines_release_lock true ⟨Except.ok "r"⟩ ⟨Except.ok (), true⟩
    ⟨Except.ok (), Except.ok (), true⟩ initState 1 "hola" ["hola"] rfl⟩

/-- C2 counterexample: in `c2State` user 1 holds the operation lock and has
the voice intent armed; sending an audio enters the transform pipeline,
which is rejected with the still-processing notice — yet the pending voice
intent has been cleared by the rejected request, so the claim that no
per-user state is mutated is false. -/
theorem reject_mutates_voice_intent_cex :
    c2State.pendingOperations 1 = some opGptGenerating ∧
    c2State.pendingVoiceTransformations 1 = some 5 ∧
    (processVoiceTransformation ⟨Except.ok (), Except.ok (), true⟩ c2State 1).2 =
      [Event.enterTransformPipeline, Event.reply ReplyKind.stillProcessing] ∧
    (processVoiceTransformation ⟨Except.ok (), Except.ok (), true⟩ c2State 1).1.pendingVoiceTransformations 1 = none := by
  exact ⟨rfl, rfl, by decide, by decide⟩

/-- C2 amended: with the lock held, the text-generation and text-to-speech
pipelines reject with the still-processing notice and change nothing, and
the voice-transform pipeline rejects with the still-processing notice
leaving the lock and the conversation store unchanged — but it clears the
pending voice intent before the lock check, so a rejected audio still
consumes the intent. -/
theorem reject_preserves_state_amended (gorc : GptOracle) (torc : T2vOracle)
    (vorc : V2vOracle) (s : BotState) (u : Int) (k msg : String)
    (parts : List String) (opts : T2vOptions) (text : String)
    (h : s.pendingOperations u = some k)
    (hp : parseT2V parts = Except.ok (opts, text)) (ht : text ≠ "") :
    processGPTMessage true gorc s u msg = (s, [Event.reply ReplyKind.stillProcessing]) ∧
    handleTextToVoiceCommand torc s u parts = (s, [Event.reply ReplyKind.stillProcessing]) ∧
    (processVoiceTransformation vorc s u).1.pendingOperations = s.pendingOperations ∧
    (processVoiceTransformation vorc s u).1.conversations = s.conversations ∧
    (processVoiceTransformation vorc s u).1.pendingVoiceTransformations u = none ∧
    (processVoiceTransformation vorc s u).2 =
      [Event.enterTransformPipeline, Event.reply ReplyKind.stillProcessing] := by
  refine ⟨?_, ?_, ?_, ?_, ?_, ?_⟩ <;>
    simp [processGPTMessage, handleTextToVoiceCommand, processVoiceTransformation,
      hp, ht, h, mapSet]

/-- C2 amended witness: hypotheses discharged at `c2State` for user 1. -/
theorem reject_preserves_state_amended_witness :
    (c2State.pendingOperations 1 = some opGptGenerating ∧
     parseT2V ["hola"] = Except.ok ({}, "hola") ∧ "hola" ≠ "") ∧
    (processGPTMessage true ⟨Except.ok "r"⟩ c2State 1 "m" = (c2State, [Event.reply ReplyKind.stillProcessing]) ∧
     handleTextToVoiceCommand ⟨Except.ok (), true⟩ c2State 1 ["hola"] = (c2State, [Event.reply ReplyKind.stillProcessing]) ∧
     (processVoiceTransformation ⟨Except.ok (), Except.ok (), true⟩ c2State 1).1.pendingOperations = c2State.pendingOperations ∧
     (processVoiceTransformation ⟨Except.ok (), Except.ok (), true⟩ c2State 1).1.conversations = c2State.conversations ∧
     (processVoiceTransformation ⟨Except.ok (), Except.ok (), true⟩ c2State 1).1.pendingVoiceTransformations 1 = none ∧
     (processVoiceTransformation ⟨Except.ok (), Except.ok (), true⟩ c2State 1).2 =
       [Event.enterTransformPipeline, Event.reply ReplyKind.stillProcessing]) :=
  ⟨⟨rfl, by decide, by decide⟩,
   reject_preserves_state_amended ⟨Except.ok "r"⟩ ⟨Except.ok (), true⟩
     ⟨Except.ok (), Except.ok (), true⟩ c2State 1 opGptGenerating "m" ["hola"] {} "hola"
     rfl (by decide) (by decide)⟩

theorem appendEntry_inv (c : List ChatEntry) (e : ChatEntry)
    (h1 : c.head? = some systemEntry) (h2 : c.length ≤ maxMessages) :
    (appendEntry c e).head? = some systemEntry ∧ (appendEntry c e).length ≤ maxMessages := by
  rcases c with _ | ⟨h, t⟩
  · simp at h1
  · simp only [List.head?_cons, Option.some.injEq] at h1
    subst h1
    simp only [appendEntry, trimConversation, List.cons_append]
    split
    · rename_i hgt
      refine ⟨by simp, ?_⟩
      simp only [List.length_cons, List.length_append] at *
      simp [List.length_drop]
      omega
    · rename_i hle
      refine ⟨by simp, ?_⟩
      simp only [List.length_cons, List.length_append] at *
      omega

theorem conv_fold_some (u : Int) (ops : List (String × String)) :
    ∀ (m : ConvMap) (c : List ChatEntry), m u = some c →
      ((ops.foldl (fun acc rc => addMessageToConversation true acc u rc.1 rc.2) m) u) =
        some (ops.foldl (fun acc rc => appendEntry acc ⟨rc.1, rc.2⟩) c) := by
  induction ops with
  | nil => intro m c hm; simpa using hm
  | cons e rest ih =>
    intro m c hm
    simp only [List.foldl_cons]
    apply ih
    simp [addMessageToConversation, getConversation, hm, mapSet, appendEntry]

theorem listfold_inv (ops : List (String × String)) :
    ∀ c : List ChatEntry, c.head? = some systemEntry → c.length ≤ maxMessages →
      ((ops.foldl (fun acc rc => appendEntry acc ⟨rc.1, rc.2⟩) c).head? = some systemEntry ∧
       (ops.foldl (fun acc rc => appendEntry acc ⟨rc.1, rc.2⟩) c).length ≤ maxMessages) := by
  induction ops with
  | nil => intro c hh hl; exact ⟨hh, hl⟩
  | cons e rest ih =>
    intro c hh hl
    simp only [List.foldl_cons]
    obtain ⟨g1, g2⟩ := appendEntry_inv c ⟨e.1, e.2⟩ hh hl
    exact ih _ g1 g2

/-- C3: starting from an absent history, after any sequence of appends the
user's conversation is at most `1 + 2*10 = 21` entries long and its first
entry is the fixed system entry; moreover one append on a full history
evicts exactly the oldest entries after index 0 (the eviction equation in
the last conjunct). -/
theorem conversation_history_bounded (u : Int) (ops : List (String × String)) :
    (getConversation (ops.foldl (fun acc rc => addMessageToConversation true acc u rc.1 rc.2)
        (fun _ => none)) u).2.length ≤ maxMessages ∧
    (getConversation (ops.foldl (fun acc rc => addMessageToConversation true acc u rc.1 rc.2)
        (fun _ => none)) u).2.head? = some systemEntry ∧
    ∀ (c : List ChatEntry) (e : ChatEntry),
      appendEntry (systemEntry :: c) e =
        if c.length + 2 ≤ maxMessages then systemEntry :: (c ++ [e])
        else systemEntry :: List.drop (c.length + 2 - maxMessages) (c ++ [e]) := by
  have main : (getConversation (ops.foldl (fun acc rc => addMessageToConversation true acc u rc.1 rc.2)
      (fun _ => none)) u).2.length ≤ maxMessages ∧
      (getConversation (ops.foldl (fun acc rc => addMessageToConversation true acc u rc.1 rc.2)
        (fun _ => none)) u).2.head? = some systemEntry := by
    rcases ops with _ | ⟨e, rest⟩
    · constructor <;> simp [getConversation, maxMessages, maxHistoryPairs]
    · have h1 : (addMessageToConversation true (fun _ => none) u e.1 e.2) u =
          some (appendEntry [systemEntry] ⟨e.1, e.2⟩) := by
        simp [addMessageToConversation, getConversation, mapSet, appendEntry]
      have h2 := conv_fold_some u rest _ _ h1
      have hseed : ([systemEntry] : List ChatEntry).head? = some systemEntry ∧
          ([systemEntry] : List ChatEntry).length ≤ maxMessages := by
        constructor <;> simp [maxMessages, maxHistoryPairs]
      obtain ⟨g1, g2⟩ := appendEntry_inv [systemEntry] ⟨e.1, e.2⟩ hseed.1 hseed.2
      obtain ⟨f1, f2⟩ := listfold_inv rest _ g1 g2
      simp only [List.foldl_cons, getConversation, h2]
      exact ⟨f2, f1⟩
  refine ⟨main.1, main.2, ?_⟩
  intro c e
  have hlen : (systemEntry :: (c ++ [e])).length = c.length + 2 := by simp
  simp only [appendEntry, trimConversation, List.cons_append]
  rw [hlen]
  split
  · rename_i hgt
    rw [if_neg (by omega)]
  · rename_i hle
    rw [if_pos (by omega)]

/-- C4: with the voice intent armed and the lock free, the first audio
message enters the transform pipeline (exactly one entry event, for every
fault-injection outcome) and the intent is cleared before any backend work
can fail; the second audio message finds the intent cleared and is treated
as an unsolicited audio message (a notice, no pipeline, no state change),
so across the two messages the pipeline is triggered exactly once. -/
theorem voice_intent_consumed_once (v1 v2 : V2vOracle) (s : BotState) (u mid : Int)
    (h1 : s.pendingOperations u = none)
    (h2 : s.pendingVoiceTransformations u = some mid) :
    (handleAudioMessage v1 s u).2.countP isEnterTransform = 1 ∧
    (handleAudioMessage v1 s u).1.pendingVoiceTransformations u = none ∧
    handleAudioMessage v2 (handleAudioMessage v1 s u).1 u =
      ((handleAudioMessage v1 s u).1, [Event.reply ReplyKind.unsolicitedAudio]) ∧
    ((handleAudioMessage v1 s u).2 ++
      (handleAudioMessage v2 (handleAudioMessage v1 s u).1 u).2).countP isEnterTransform = 1 := by
  have key : (handleAudioMessage v1 s u).2.countP isEnterTransform = 1 ∧
      (handleAudioMessage v1 s u).1.pendingVoiceTransformations u = none := by
    cases hd : v1.download <;> cases htr : v1.transform <;> cases hdel : v1.deliveryOk <;>
      simp [handleAudioMessage, processVoiceTransformation, h1, h2, hd, htr, hdel,
        mapSet, List.countP, List.countP.go, isEnterTransform]
  obtain ⟨k1, k2⟩ := key
  set s1 := (handleAudioMessage v1 s u).1 with hs1
  have second : handleAudioMessage v2 s1 u = (s1, [Event.reply ReplyKind.unsolicitedAudio]) := by
    rw [handleAudioMessage, k2]
    simp
  refine ⟨k1, k2, second, ?_⟩
  rw [List.countP_append, k1, second]
  simp [List.countP, List.countP.go, isEnterTransform]

/-- C4 witness: hypotheses discharged at a concrete armed state for user 1,
with an all-success oracle for the first audio and a failing oracle for the
second. -/
theorem voice_intent_consumed_once_witness :
    (c4State.pendingOperations 1 = none ∧ c4State.pendingVoiceTransformations 1 = some 7) ∧
    ((handleAudioMessage ⟨Except.ok (), Except.ok (), true⟩ c4State 1).2.countP isEnterTransform = 1 ∧
     (handleAudioMessage ⟨Except.ok (), Except.ok (), true⟩ c4State 1).1.pendingVoiceTransformations 1 = none ∧
     handleAudioMessage ⟨Except.error "net", Except.ok (), true⟩
        (handleAudioMessage ⟨Except.ok (), Except.ok (), true⟩ c4State 1).1 1 =
       ((handleAudioMessage ⟨Except.ok (), Except.ok (), true⟩ c4State 1).1,
        [Event.reply ReplyKind.unsolicitedAudio]) ∧
     ((handleAudioMessage ⟨Except.ok (), Except.ok (), true⟩ c4State 1).2 ++
       (handleAudioMessage ⟨Except.error "net", Except.ok (), true⟩
         (handleAudioMessage ⟨Except.ok (), Except.ok (), true⟩ c4State 1).1 1).2).countP
         isEnterTransform = 1) :=
  ⟨⟨rfl, rfl⟩,
   voice_intent_consumed_once ⟨Except.ok (), Except.ok (), true⟩
     ⟨Except.error "net", Except.ok (), true⟩ c4State 1 7 rfl rfl⟩

/-- C5 counterexample: in `c5State` user 1 is in AwaitingAudio (intent
armed).  The next message is the non-audio input `/t hola`: after it is
processed the intent is still armed (not cleared) and the text-generation
pipeline was triggered (one GPT backend call), refuting both parts of the
claim. -/
theorem t_command_keeps_intent_cex :
    c5State.pendingVoiceTransformations 1 = some 7 ∧
    c5State.pendingOperations 1 = none ∧
    (handleTextCommand true ⟨Except.ok "ok"⟩ c5State 1 "/t hola").1.pendingVoiceTransformations 1 = some 7 ∧
    (handleTextCommand true ⟨Except.ok "ok"⟩ c5State 1 "/t hola").2.countP isGptCall = 1 :=
  ⟨rfl, rfl, by decide, by decide⟩

/-- C5 amended: while AwaitingAudio, a plain (non-command, nonempty) text
message cancels the intent: it is cleared, the user notified, and no
pipeline is triggered.  Command messages, however, are dispatched to their
own handlers: the text command never reads or clears the intent, so the
intent can be held across any number of subsequent command messages. -/
theorem plain_text_cancels_intent_amended (gptEnabled : Bool)
    (gorc orc2 : GptOracle) (s : BotState) (u mid v : Int) (text mt : String)
    (h2 : s.pendingVoiceTransformations u = some mid)
    (ht : ((jsTrim text == "") || jsStartsWith text "/") = false) :
    handleMessage gptEnabled gorc s u text =
      ({ s with pendingVoiceTransformations := mapSet s.pendingVoiceTransformations u none },
       [Event.reply ReplyKind.cancelledVoiceIntent]) ∧
    (handleTextCommand true orc2 s u mt).1.pendingVoiceTransformations v =
      s.pendingVoiceTransformations v := by
  constructor
  · rw [handleMessage, ht, h2]
    simp
  · unfold handleTextCommand
    split
    · rfl
    · rcases extractTArg mt with _ | msg
      · rfl
      · unfold processGPTMessage
        repeat' split
        all_goals rfl

/-- C5 amended witness: hypotheses discharged at `c5State` for user 1 with
the plain text message `hola` and the command message `/t hola`. -/
theorem plain_text_cancels_intent_amended_witness :
    (c5State.pendingVoiceTransformations 1 = some 7 ∧
     ((jsTrim "hola" == "") || jsStartsWith "hola" "/") = false) ∧
    (handleMessage true ⟨Except.ok "ok"⟩ c5State 1 "hola" =
      ({ c5State with pendingVoiceTransformations := mapSet c5State.pendingVoiceTransformations 1 none },
       [Event.reply ReplyKind.cancelledVoiceIntent]) ∧
     (handleTextCommand true ⟨Except.ok "ok"⟩ c5State 1 "/t hola").1.pendingVoiceTransformations 2 =
       c5State.pendingVoiceTransformations 2) :=
  ⟨⟨rfl, by decide⟩,
   plain_text_cancels_intent_amended true ⟨Except.ok "ok"⟩ ⟨Except.ok "ok"⟩ c5State 1 7 2
     "hola" "/t hola" rfl (by decide)⟩

/-- C6: the flag parser of the text-to-speech command on the three
specified argument lists: overrides stability 0.4 and speed 1.1 with body
"Hola" (in quotes, as the source keeps the quote characters) for the first;
a hard parse error for the non-numeric value and for the trailing flag, in
both cases the handler replying with the parse error, leaving the state
untouched and making zero backend calls (the event trace is exactly the
error notice). -/
theorem t2v_flag_parsing_cases :
    parseT2V ["-s", "0.4", "-v", "1.1", "\"Hola\""] =
      Except.ok ({ stability := some (mkRat 2 5), style := none, speed := some (mkRat 11 10) },
        "\"Hola\"") ∧
    parseT2V ["-s", "abc", "\"Hola\""] =
      Except.error (ParseErr.valueNotNumeric T2vFlag.stability "abc") ∧
    (∀ (torc : T2vOracle) (s : BotState) (u : Int),
      handleTextToVoiceCommand torc s u ["-s", "abc", "\"Hola\""] =
        (s, [Event.reply (ReplyKind.parseError (ParseErr.valueNotNumeric T2vFlag.stability "abc"))])) ∧
    parseT2V ["\"Hola\"", "-s"] = Except.error (ParseErr.trailingFlag T2vFlag.stability) ∧
    (∀ (torc : T2vOracle) (s : BotState) (u : Int),
      handleTextToVoiceCommand torc s u ["\"Hola\"", "-s"] =
        (s, [Event.reply (ReplyKind.parseError (ParseErr.trailingFlag T2vFlag.stability))])) := by
  refine ⟨by decide, by decide, ?_, by decide, ?_⟩
  · intro torc s u
    rw [handleTextToVoiceCommand,
      show parseT2V ["-s", "abc", "\"Hola\""] =
        Except.error (ParseErr.valueNotNumeric T2vFlag.stability "abc") from by decide]
  · intro torc s u
    rw [handleTextToVoiceCommand,
      show parseT2V ["\"Hola\"", "-s"] =
        Except.error (ParseErr.trailingFlag T2vFlag.stability) from by decide]

/-- C7: the retry wrapper with max attempts 3 — an operation failing on the
first two attempts and succeeding on the third returns that success and
performs exactly the two inter-attempt delays `d` and `2*d` (the backoff
doubles each attempt); an operation failing on all three attempts
propagates the error of the last attempt. -/
theorem retry_three_attempts (α : Type) (f g : ℕ → Except String α) (d : ℕ)
    (e0 e1 a b c : String) (v : α)
    (h0 : f 0 = Except.error e0) (h1 : f 1 = Except.error e1) (h2 : f 2 = Except.ok v)
    (k0 : g 0 = Except.error a) (k1 : g 1 = Except.error b) (k2 : g 2 = Except.error c) :
    retry f 3 d = (Except.ok v, [d, 2 * d]) ∧
    retry g 3 d = (Except.error c, [d, 2 * d]) := by
  constructor <;>
    · simp only [retry, retryGo, h0, h1, h2, k0, k1, k2]
      norm_num
      ring

/-- C7 witness: hypotheses discharged with the concrete operations
`retryWitF` (fails twice, then returns 7) and `retryWitG` (always fails),
with base delay 5000. -/
theorem retry_three_attempts_witness :
    (retryWitF 0 = Except.error "boom" ∧ retryWitF 1 = Except.error "boom" ∧
     retryWitF 2 = Except.ok 7 ∧ retryWitG 0 = Except.error "down" ∧
     retryWitG 1 = Except.error "down" ∧ retryWitG 2 = Except.error "down") ∧
    (retry retryWitF 3 5000 = (Except.ok 7, [5000, 10000]) ∧
     retry retryWitG 3 5000 = (Except.error "down", [5000, 10000])) :=
  ⟨⟨rfl, rfl, rfl, rfl, rfl, rfl⟩,
   retry_three_attempts ℕ retryWitF retryWitG 5000 "boom" "boom" "down" "down" "down" 7
     rfl rfl rfl rfl rfl rfl⟩

/-- C8: the numeric overrides actually used by the synthesis call are the
supplied values clamped to each option's fixed valid range (stability to
[0,1], style to [0,∞), speed to [0.5,2]), an absent option falls back to
its configured default, and an out-of-range numeric value is never
rejected: the pipeline proceeds to the backend call with the clamped value,
as shown for the out-of-range stability 5 which is used as 1. -/
theorem voice_overrides_clamped (o : VoiceOptions) :
    finalVoiceSettings o = specVoiceSettings o ∧
    finalVoiceSettings {} =
      ⟨defaultStability, defaultSimilarityBoost, defaultStyle, defaultSpeed,
        defaultUseSpeakerBoost⟩ ∧
    (handleTextToVoiceCommand ⟨Except.ok (), true⟩ initState 1 ["-s", "5", "hola"]).2 =
      [Event.ttsCall ⟨1, 1, mkRat 7 10, 1, true⟩, Event.sendAudio] := by
  refine ⟨?_, by decide, by decide⟩
  obtain ⟨st, sb, sty, sp, ub⟩ := o
  cases st <;> cases sb <;> cases sty <;> cases sp <;> cases ub <;> rfl

/-- C9: conversation reset is idempotent — resetting twice yields the same
store state as resetting once (which also covers resetting a user with no
history, that being exactly the once-reset state), the reset user's history
is absent afterwards, and the next get reseeds a fresh history holding only
the system entry. -/
theorem reset_idempotent_reseed (s : BotState) (u : Int) :
    (handleResetConversation true (handleResetConversation true s u).1 u).1 =
      (handleResetConversation true s u).1 ∧
    (handleResetConversation true s u).1.conversations u = none ∧
    (getConversation (handleResetConversation true s u).1.conversations u).2 = [systemEntry] := by
  refine ⟨?_, ?_, ?_⟩
  · unfold handleResetConversation
    simp only [Bool.true_eq_false, if_false]
    ext1
    · rfl
    · exact mapSet_idem s.conversations u none none
    · rfl
  · simp [handleResetConversation, mapSet]
  · simp [handleResetConversation, getConversation, mapSet]

/-- C10: the authorized (and admin) id sets built from a comma-separated
configuration string contain exactly the values of the tokens that parse as
numbers (tokens that do not parse are silently dropped), `isAuthorized` and
`isAdmin` are true exactly for a nonzero id in the parsed set — hence true
only for identifiers that survived the filtering — and a list of entirely
malformed tokens yields the empty set. -/
theorem authorized_ids_filtering (cfg : String) (u v : Int) :
    (v ∈ parseIds (some cfg) ↔
      ∃ tok ∈ jsSplitComma cfg, jsParseInt (jsTrim tok) = some v) ∧
    (isAuthorized (parseIds (some cfg)) u = true ↔
      ((u != 0) = true ∧ u ∈ parseIds (some cfg))) ∧
    (isAdmin (parseIds (some cfg)) u = true ↔
      ((u != 0) = true ∧ u ∈ parseIds (some cfg))) ∧
    parseIds (some "abc, xy,,?!") = [] := by
  refine ⟨?_, ?_, ?_, by decide⟩
  · by_cases hc : cfg = ""
    · subst hc
      simp [parseIds, jsSplitComma, splitCommaAux, jsTrim, jsTrimChars, jsParseInt,
        natOfDigits]
    · simp [parseIds, hc, List.mem_filterMap]
  · simp [isAuthorized, List.contains, List.elem_eq_mem]
  · simp [isAdmin, List.contains, List.elem_eq_mem]
